import Mathlib

/-!
Shallow embedding of the ibScaleMPFeeder motion-control core:
src/mpy/lib/system/peel.py (class PeelMotor) and
src/mpy/lib/system/servo.py (class Servo).

Positions, tick counts and peel speeds are modelled as Int (Python ints);
PID gains, outputs and accumulators as Rat (Python floats, taken as exact
arithmetic).  Hardware effects are made explicit: calls to
drives.drive_set(v) and drives.peel_set(v) are collected into command
lists, drives.enable(b) becomes the drives_enabled flag, the encoder
reading and the clocks time.ticks_us()/time.ticks_ms() are inputs to each
operation.  Logging (dmesg) is dropped; it has no effect on control state.
-/

/-- PeelMotor states: STATE_STOPPED, STATE_FORWARD, STATE_REVERSE (peel.py line 12). -/
inductive PDir where
  | stopped
  | forward
  | reverse
deriving DecidableEq, Repr

/-- State of class PeelMotor (peel.py).  drives is externalised; dmesg/debug dropped. -/
structure PeelMotor where
  default_speed : Int
  default_time_ms : Int
  current_state : PDir
  target_run_time_ms : Int
  run_start_time_ms : Int
  current_actual_speed : Int
deriving DecidableEq, Repr

/-- PeelMotor.__init__ (peel.py lines 14-20): default_speed is abs()'ed, timers zeroed. -/
def PeelMotor.init (default_speed default_time_ms : Int) : PeelMotor :=
  { default_speed := |default_speed|
    default_time_ms := default_time_ms
    current_state := PDir.stopped
    target_run_time_ms := 0
    run_start_time_ms := 0
    current_actual_speed := 0 }

/-- PeelMotor.is_idle (peel.py lines 123-125). -/
def PeelMotor.is_idle (p : PeelMotor) : Bool :=
  p.current_state = PDir.stopped

/-- PeelMotor._set_state (peel.py lines 75-101).  Returns the new state and the
list of peel_set commands issued (speed sign encodes direction). -/
def PeelMotor._set_state (p : PeelMotor) (new_state : PDir) (speed_to_use : Option Int) :
    PeelMotor × List Int :=
  let resolved : Int :=
    if new_state ≠ PDir.stopped ∧ speed_to_use = none then p.default_speed
    else if new_state = PDir.stopped then 0
    else speed_to_use.getD 0
  -- Skip if no change needed (except for stop which always executes)
  if p.current_state = new_state ∧ new_state ≠ PDir.stopped ∧
      p.current_actual_speed = resolved then
    (p, [])
  else
    let speed2 : Int := if new_state ≠ PDir.stopped then resolved else 0
    match new_state with
    | PDir.forward =>
        ({ p with current_state := new_state, current_actual_speed := speed2 }, [speed2])
    | PDir.reverse =>
        ({ p with current_state := new_state, current_actual_speed := speed2 }, [-speed2])
    | PDir.stopped =>
        ({ p with current_state := new_state, current_actual_speed := 0,
                  run_start_time_ms := 0, target_run_time_ms := 0 }, [0])

/-- The state_map of PeelMotor.run (peel.py line 32): direction -1/0/1 to state. -/
def PeelMotor.dirstate (direction_int : Int) : Option PDir :=
  if direction_int = 0 then some PDir.stopped
  else if direction_int = 1 then some PDir.forward
  else if direction_int = -1 then some PDir.reverse
  else none

/-- PeelMotor.run (peel.py lines 29-73).  time_ms = none and speed = none model the
Python default arguments; now_ms models time.ticks_ms(). -/
def PeelMotor.run (p : PeelMotor) (now_ms : Int) (direction_int : Int)
    (time_ms : Option Int) (speed : Option Int) : PeelMotor × List Int :=
  match PeelMotor.dirstate direction_int with
  | none => (p, [])
  | some direction_state =>
    let run_time_ms : Int := time_ms.getD p.default_time_ms
    if run_time_ms < 0 then (p, [])
    else
      let actual_speed : Int :=
        match speed with
        | some sp => min (|sp|) 100
        | none => p.default_speed
      -- Handle immediate stop
      if direction_state = PDir.stopped ∨
          (run_time_ms = 0 ∧ direction_state ≠ PDir.stopped) then
        p._set_state PDir.stopped (some 0)
      else
        -- Check if state/speed change needed
        let state_changed : Prop :=
          p.current_state ≠ direction_state ∨ p.current_state = PDir.stopped ∨
          p.current_actual_speed ≠ actual_speed
        let step :=
          if state_changed then p._set_state direction_state (some actual_speed)
          else (p, [])
        -- Reset timer
        ({ step.1 with run_start_time_ms := now_ms, target_run_time_ms := run_time_ms },
         step.2)

/-- PeelMotor.update (peel.py lines 103-111); now_ms models time.ticks_ms(), and
time.ticks_diff(a, b) is a - b on the unwrapped Int clock. -/
def PeelMotor.update (p : PeelMotor) (now_ms : Int) : PeelMotor × List Int :=
  if p.current_state = PDir.stopped ∨ p.target_run_time_ms ≤ 0 then (p, [])
  else if now_ms - p.run_start_time_ms ≥ p.target_run_time_ms then
    p._set_state PDir.stopped (some 0)
  else (p, [])

/-- State of class Servo (servo.py).  Field names follow the source, with the
leading underscore of private attributes dropped.  The drives object is
modelled by the drives_enabled / auto_brake flags plus the explicit command
lists returned by each operation; the contained PeelMotor is the peel_motor
field.  dmesg/debug_enabled are dropped (logging only). -/
structure Servo where
  Kp : ℚ
  Ki : ℚ
  Kd : ℚ
  pid_taper : ℚ
  max_output : ℚ
  min_output : ℚ
  backlash_takeup : Int
  tolerance : Int
  ramp_ticks : Int
  stable_updates : Int
  ramp_taper_percent : ℚ
  drives_enabled : Bool
  auto_brake : Bool
  integral : ℚ
  previous_error : ℚ
  last_time_us : Int
  setpoint : Int
  original_setpoint : Int
  target_reached : Bool
  stable_count : Int
  initial_encoder_pos_at_move_start : Int
  initial_error_at_move_start : Int
  backlash_active : Bool
  waiting_for_peel_idle_phase1 : Bool
  current_movement_is_forward : Bool
  derivative : ℚ
  derivative_alpha : ℚ
  dynamic_scale_threshold : ℚ
  peel_motor_enabled_by_servo : Bool
  default_peel_speed : Int
  default_peel_run_time_ms : Int
  peel_motor : PeelMotor

/-- Servo.__init__ (servo.py lines 18-70).  drives_enabled0 is the enable state of
the externally supplied drives object (the constructor does not change it).
Note the silent normalisation: abs() on max_output, min_output,
backlash_takeup, tolerance, ramp_ticks; ramp_taper_percent clamped to
[0, 100]; no value is rejected. -/
def Servo.init (drives_enabled0 : Bool) (Kp Ki Kd pid_taper : ℚ)
    (max_output min_output : ℚ) (backlash_takeup tolerance ramp_ticks stable_updates : Int)
    (ramp_taper_percent : ℚ) (brake peel_enable : Bool) (peel_speed peel_time_ms : Int)
    (derivative_alpha dynamic_scale_threshold : ℚ) : Servo :=
  { Kp := Kp, Ki := Ki, Kd := Kd, pid_taper := pid_taper
    max_output := |max_output|
    min_output := |min_output|
    backlash_takeup := |backlash_takeup|
    tolerance := |tolerance|
    ramp_ticks := |ramp_ticks|
    stable_updates := stable_updates
    ramp_taper_percent := max 0 (min 100 ramp_taper_percent)
    drives_enabled := drives_enabled0
    auto_brake := brake
    integral := 0
    previous_error := 0
    last_time_us := 0
    setpoint := 0
    original_setpoint := 0
    target_reached := true
    stable_count := 0
    initial_encoder_pos_at_move_start := 0
    initial_error_at_move_start := 0
    backlash_active := false
    waiting_for_peel_idle_phase1 := false
    current_movement_is_forward := true
    derivative := 0
    derivative_alpha := derivative_alpha
    dynamic_scale_threshold := dynamic_scale_threshold
    peel_motor_enabled_by_servo := peel_enable
    default_peel_speed := peel_speed
    default_peel_run_time_ms := peel_time_ms
    peel_motor := PeelMotor.init peel_speed peel_time_ms }

/-- Result of a Servo operation: the new state plus the drive_set commands (main
axis, exact rational PWM values) and peel_set commands issued during the call. -/
structure ServoStep where
  state : Servo
  drive_cmds : List ℚ
  peel_cmds : List Int

/-- Servo.enable (servo.py lines 76-87). -/
def Servo.enable (s : Servo) (state : Bool) (now_ms : Int) : ServoStep :=
  if state then
    { state := { s with drives_enabled := true }, drive_cmds := [], peel_cmds := [] }
  else
    let pr :=
      if s.peel_motor_enabled_by_servo then s.peel_motor.run now_ms 0 none none
      else (s.peel_motor, [])
    { state := { s with peel_motor := pr.1, target_reached := true,
                        backlash_active := false, waiting_for_peel_idle_phase1 := false,
                        drives_enabled := false }
      drive_cmds := [0]
      peel_cmds := pr.2 }

/-- Servo.stop (servo.py lines 309-315). -/
def Servo.stop (s : Servo) (now_ms : Int) : ServoStep :=
  let pr :=
    if s.peel_motor_enabled_by_servo then s.peel_motor.run now_ms 0 none none
    else (s.peel_motor, [])
  { state := { s with peel_motor := pr.1, target_reached := true,
                      backlash_active := false, waiting_for_peel_idle_phase1 := false }
    drive_cmds := [0]
    peel_cmds := pr.2 }

/-- Servo.set_target, direction branch (servo.py lines 104-131): sets up a
reverse (two-phase, backlash-compensated) or forward move and commands the
peel motor.  Expects original_setpoint and the reset flags already assigned
(lines 101-102). -/
def Servo.set_target_direction (s : Servo) (current_pos now_ms : Int) : Servo × List Int :=
  if s.original_setpoint < current_pos then
    let s := { s with backlash_active := true,
                      setpoint := s.original_setpoint - (s.ramp_ticks + s.backlash_takeup),
                      current_movement_is_forward := false }
    if s.peel_motor_enabled_by_servo then
      if ¬ s.peel_motor.is_idle then
        ({ s with waiting_for_peel_idle_phase1 := true }, [])
      else
        let pr := s.peel_motor.run now_ms (-1) (some s.default_peel_run_time_ms)
            (some s.default_peel_speed)
        ({ s with peel_motor := pr.1 }, pr.2)
    else (s, [])
  else
    let s := { s with setpoint := s.original_setpoint }
    if s.setpoint ≠ current_pos then
      let s := { s with current_movement_is_forward := decide (s.setpoint > current_pos) }
      if s.peel_motor_enabled_by_servo then
        let pr := s.peel_motor.run now_ms 1 (some s.default_peel_run_time_ms)
            (some s.default_peel_speed)
        ({ s with peel_motor := pr.1 }, pr.2)
      else (s, [])
    else
      let s := { s with current_movement_is_forward := true }
      if s.peel_motor_enabled_by_servo then
        let pr := s.peel_motor.run now_ms 0 none none
        ({ s with peel_motor := pr.1 }, pr.2)
      else (s, [])

/-- Servo.set_target, already-within-tolerance check (servo.py lines 141-153).
Expects the reset control state (lines 133-139) already assigned; peel1 is the
list of peel commands issued so far in this set_target call. -/
def Servo.set_target_tolcheck (s : Servo) (current_pos now_ms : Int)
    (peel1 : List Int) : ServoStep :=
  if s.initial_error_at_move_start ≤ s.tolerance then
    if s.backlash_active ∧ ¬ s.current_movement_is_forward then
      { state := s, drive_cmds := [], peel_cmds := peel1 }
    else
      let s := { s with target_reached := true }
      let step2 : Servo × List Int :=
        if s.setpoint = current_pos ∧ s.peel_motor_enabled_by_servo then
          let pr := s.peel_motor.run now_ms 0 none none
          ({ s with peel_motor := pr.1 }, pr.2)
        else (s, [])
      let s := step2.1
      let s := if s.backlash_active then { s with backlash_active := false } else s
      { state := s, drive_cmds := [0], peel_cmds := peel1 ++ step2.2 }
  else
    { state := s, drive_cmds := [], peel_cmds := peel1 }

/-- Servo.set_target (servo.py lines 96-153).  current_pos is the encoder
absolute_count read after encoder.update(); now_us models time.ticks_us() and
now_ms time.ticks_ms() (used by the PeelMotor timer). -/
def Servo.set_target (s : Servo) (target_position : Int)
    (current_pos now_us now_ms : Int) : ServoStep :=
  -- self.enable(True); encoder.update(); current_pos = encoder.absolute_count
  let s := { s with drives_enabled := true,
                    original_setpoint := target_position, target_reached := false,
                    backlash_active := false, waiting_for_peel_idle_phase1 := false }
  -- is_moving_backwards branch (lines 104-131)
  let step1 := s.set_target_direction current_pos now_ms
  -- Reset control state (lines 133-139)
  let s := { step1.1 with integral := 0,
                          previous_error := ((step1.1.setpoint - current_pos : Int) : ℚ),
                          last_time_us := now_us,
                          stable_count := 0,
                          initial_encoder_pos_at_move_start := current_pos,
                          initial_error_at_move_start := |step1.1.setpoint - current_pos| }
  -- Check if already within tolerance (lines 141-153)
  s.set_target_tolcheck current_pos now_ms step1.2

/-- Servo.update, control output calculation (servo.py lines 253-300): Phase-1
reverse interpolation, open-loop ramp, or PID.  error and dist are the values
computed at lines 222-223 (dist = |error|); now_us models time.ticks_us().
Returns (state, drive_set commands issued inside this section, output). -/
def Servo.control_output (s : Servo) (error dist now_us : Int) : Servo × List ℚ × ℚ :=
  -- Phase 1 reverse control (lines 257-263)
  if s.backlash_active ∧ ¬ s.current_movement_is_forward then
    let reverse_min_speed := s.max_output * (6 / 10 : ℚ)
    let total_distance := s.initial_error_at_move_start
    let progress : ℚ :=
      if total_distance > 0 then (dist : ℚ) / (total_distance : ℚ) else 0
    let progress := max 0 (min 1 progress)
    let output := -(s.min_output + (reverse_min_speed - s.min_output) * progress)
    (s, [], max (-s.max_output) (min output (-s.min_output)))
  -- Ramp phase (lines 266-279)
  else if dist > s.ramp_ticks then
    let tapered_speed := s.ramp_taper_percent / 100 * s.max_output
    let min_ramp_speed := min (max tapered_speed s.min_output) s.max_output
    let ramp_span := s.initial_error_at_move_start - s.ramp_ticks
    let output : ℚ :=
      if ramp_span > 0 then
        let progress := ((dist - s.ramp_ticks : Int) : ℚ) / ((ramp_span : Int) : ℚ)
        let progress := max 0 (min 1 progress)
        min_ramp_speed + (s.max_output - min_ramp_speed) * progress
      else min_ramp_speed
    (s, [], min output s.max_output)
  -- PID phase (lines 281-300)
  else
    if |error| ≤ s.tolerance then (s, [0], 0)
    else
      let P := s.Kp * (error : ℚ)
      let dt : ℚ :=
        if s.last_time_us > 0 then ((now_us - s.last_time_us : Int) : ℚ) / 1000000
        else 1 / 50
      let integral := s.integral + (error : ℚ) * dt
      let max_integral : ℚ := if s.Ki ≠ 0 then s.max_output / s.Ki else s.max_output
      let integral := max (min integral max_integral) (-max_integral)
      let I := s.Ki * integral
      let dstep : ℚ × ℚ :=
        if s.last_time_us > 0 ∧ dt > 0 then
          let raw_derivative := ((error : ℚ) - s.previous_error) / dt
          let deriv := s.derivative_alpha * raw_derivative +
              (1 - s.derivative_alpha) * s.derivative
          (deriv, s.Kd * deriv)
        else (s.derivative, 0)
      let output := P + I + dstep.2
      ({ s with integral := integral, derivative := dstep.1 },
       [], min (max output s.min_output) s.max_output)

/-- Servo.update, movement control logic (servo.py lines 221-307): overshoot
detection, target-reached stability check, control output, and the final
clamped drive_set.  Returns (state, drive_set commands, return value). -/
def Servo.movement_control (s : Servo) (current_position now_us : Int) :
    Servo × List ℚ × Bool :=
  let error : Int := s.setpoint - current_position
  let dist : Int := |error|
  -- Overshoot detection, forward movements only (lines 225-234)
  if s.current_movement_is_forward ∧ current_position > s.setpoint ∧ dist > s.tolerance then
    let s := { s with target_reached := true }
    let s := if s.backlash_active then { s with backlash_active := false } else s
    (s, [0], false)
  -- Target reached check, completion case (lines 236-247)
  else if dist ≤ s.tolerance ∧ ¬ (s.backlash_active ∧ ¬ s.current_movement_is_forward) ∧
      s.stable_count + 1 ≥ s.stable_updates then
    let s := { s with stable_count := s.stable_count + 1, target_reached := true }
    let s := if s.backlash_active then { s with backlash_active := false } else s
    (s, [0], false)
  else
    -- Target reached check, not yet stable / reset (lines 236-251)
    let step1 : Servo × List ℚ :=
      if dist ≤ s.tolerance then
        if ¬ (s.backlash_active ∧ ¬ s.current_movement_is_forward) then
          ({ s with stable_count := s.stable_count + 1 }, [0])
        else (s, [])
      else ({ s with stable_count := 0 }, [])
    -- Control output calculation (lines 253-300)
    let step2 := step1.1.control_output error dist now_us
    -- previous_error / last_time_us bookkeeping and final clamp (lines 302-307)
    let s := { step2.1 with previous_error := (error : ℚ), last_time_us := now_us }
    let output := max (min step2.2.2 s.max_output) (-s.max_output)
    (s, step1.2 ++ step2.2.1 ++ [output], true)

/-- Result of Servo.update: new state, drive_set and peel_set commands issued,
and the Bool return value (whether motion is still in progress). -/
structure UpdateResult where
  state : Servo
  drive_cmds : List ℚ
  peel_cmds : List Int
  moving : Bool

/-- Servo.update, Phase 1 completion check (servo.py lines 182-219) followed by
the movement logic.  Reached after the wait-for-peel-before-Phase-1 handling;
dacc/pacc are the commands issued so far in this update call. -/
def Servo.update_phase1_check (s : Servo) (current_position now_us now_ms : Int)
    (pacc : List Int) : UpdateResult :=
  if s.backlash_active ∧ ¬ s.current_movement_is_forward ∧
      current_position ≤ s.setpoint then
    -- lines 184-188
    let step1 : Servo × List ℚ :=
      if ¬ s.waiting_for_peel_idle_phase1 then
        ({ s with waiting_for_peel_idle_phase1 := true }, [0])
      else (s, [])
    let s := step1.1
    if s.peel_motor_enabled_by_servo ∧ ¬ s.peel_motor.is_idle then
      { state := s, drive_cmds := step1.2, peel_cmds := pacc, moving := true }
    else
      -- Transitioning to Phase 2 (lines 192-216)
      let s := { s with waiting_for_peel_idle_phase1 := false,
                        setpoint := s.original_setpoint,
                        current_movement_is_forward := true,
                        target_reached := false }
      let s := { s with integral := 0,
                        previous_error := ((s.setpoint - current_position : Int) : ℚ),
                        last_time_us := now_us,
                        stable_count := 0,
                        initial_encoder_pos_at_move_start := current_position,
                        initial_error_at_move_start := |s.setpoint - current_position| }
      let step2 : Servo × List Int :=
        if s.peel_motor_enabled_by_servo then
          let pr := s.peel_motor.run now_ms 1 (some s.default_peel_run_time_ms)
              (some s.default_peel_speed)
          ({ s with peel_motor := pr.1 }, pr.2)
        else (s, [])
      let s := step2.1
      if s.initial_error_at_move_start ≤ s.tolerance then
        let s := { s with target_reached := true, backlash_active := false }
        { state := s, drive_cmds := step1.2 ++ [0], peel_cmds := pacc ++ step2.2,
          moving := false }
      else
        -- line 218 check, then movement control (waiting flag is false here)
        let mc := s.movement_control current_position now_us
        { state := mc.1, drive_cmds := step1.2 ++ mc.2.1, peel_cmds := pacc ++ step2.2,
          moving := mc.2.2 }
  else
    -- line 218: still waiting for the peel motor, no motion this tick
    if s.waiting_for_peel_idle_phase1 then
      { state := s, drive_cmds := [], peel_cmds := pacc, moving := true }
    else
      let mc := s.movement_control current_position now_us
      { state := mc.1, drive_cmds := mc.2.1, peel_cmds := pacc, moving := mc.2.2 }

/-- Servo.update (servo.py lines 155-307).  current_position is the encoder
absolute_count read after encoder.update(); now_us models time.ticks_us(),
now_ms time.ticks_ms(). -/
def Servo.update (s : Servo) (current_position now_us now_ms : Int) : UpdateResult :=
  -- Update PeelMotor (lines 157-159)
  let pu : PeelMotor × List Int :=
    if s.peel_motor_enabled_by_servo then s.peel_motor.update now_ms
    else (s.peel_motor, [])
  let s := { s with peel_motor := pu.1 }
  -- Disabled servo (lines 161-164)
  if ¬ s.drives_enabled then
    if s.peel_motor_enabled_by_servo ∧ ¬ s.peel_motor.is_idle then
      let pr := s.peel_motor.run now_ms 0 none none
      { state := { s with peel_motor := pr.1 }, drive_cmds := [],
        peel_cmds := pu.2 ++ pr.2, moving := false }
    else
      { state := s, drive_cmds := [], peel_cmds := pu.2, moving := false }
  -- Idempotent idle (lines 166-167)
  else if s.target_reached ∧ ¬ s.waiting_for_peel_idle_phase1 then
    { state := s, drive_cmds := [], peel_cmds := pu.2, moving := false }
  -- Handle waiting for peel motor before Phase 1 (lines 172-180)
  else if s.backlash_active ∧ ¬ s.current_movement_is_forward ∧
      s.waiting_for_peel_idle_phase1 then
    if s.peel_motor_enabled_by_servo ∧ ¬ s.peel_motor.is_idle then
      { state := s, drive_cmds := [], peel_cmds := pu.2, moving := true }
    else
      let s := { s with waiting_for_peel_idle_phase1 := false }
      let pr : PeelMotor × List Int :=
        if s.peel_motor_enabled_by_servo then
          s.peel_motor.run now_ms (-1) (some s.default_peel_run_time_ms)
              (some s.default_peel_speed)
        else (s.peel_motor, [])
      Servo.update_phase1_check { s with peel_motor := pr.1 }
        current_position now_us now_ms (pu.2 ++ pr.2)
  else
    Servo.update_phase1_check s current_position now_us now_ms pu.2

/-- Iterated ticks: run Servo.update over a list of (position, now_us, now_ms)
inputs, collecting all drive commands and the per-tick return values. -/
def Servo.run_ticks (s : Servo) : List (Int × Int × Int) → Servo × List ℚ × List Bool
  | [] => (s, [], [])
  | input :: rest =>
    let r := s.update input.1 input.2.1 input.2.2
    let tail := r.state.run_ticks rest
    (tail.1, r.drive_cmds ++ tail.2.1, r.moving :: tail.2.2)

/-! ## Concrete states and derived definitions used in the theorems -/

/-- A concrete controller built with the source's default construction
parameters (servo.py lines 18-24), drives enabled, peel motor disabled. -/
def defaultServo : Servo :=
  Servo.init true (1/20) (1/1000) (1/200) 30 80 5 200 10 200 3 30 true false 75 1000 (1/10) 100

/-- Reverse-leg state reached by set_target(-100) from position 300 with the
default configuration; used to instantiate the C1 tick-level conclusion. -/
def c1Spot : Servo := (defaultServo.set_target (-100) 300 0 0).state

/-- Forward-leg state reached by set_target(1000) from position 0 with the
default configuration; used to instantiate the C3 conclusion. -/
def c3Spot : Servo := (defaultServo.set_target 1000 0 0 0).state

/-- Forward-leg state with two accumulated in-tolerance ticks, reached by
set_target(1000) from 0 and ticks at 995 and 996 (tolerance 10); used to show
that an overshoot tick does not reset the stability counter. -/
def c4Spot : Servo :=
  (((defaultServo.set_target 1000 0 0 0).state.update 995 20000 20).state.update
      996 40000 40).state

/-- A controller constructed with Ki = -1 (accepted: construction validates
nothing), used to refute the unsigned anti-windup bound. -/
def cNegKi : Servo :=
  Servo.init true 0 (-1) 0 0 80 5 200 10 200 3 30 true false 75 1000 (1/10) 100

/-- The max_integral value of the anti-windup clamp (servo.py line 288). -/
def Servo.max_integral_value (s : Servo) : ℚ :=
  if s.Ki ≠ 0 then s.max_output / s.Ki else s.max_output

/-! ## Field-preservation helper lemmas -/

theorem Servo.set_target_direction_preserves (s : Servo) (cp nm : Int) :
    (s.set_target_direction cp nm).1.drives_enabled = s.drives_enabled ∧
    (s.set_target_direction cp nm).1.original_setpoint = s.original_setpoint ∧
    (s.set_target_direction cp nm).1.target_reached = s.target_reached ∧
    (s.set_target_direction cp nm).1.tolerance = s.tolerance ∧
    (s.set_target_direction cp nm).1.ramp_ticks = s.ramp_ticks ∧
    (s.set_target_direction cp nm).1.backlash_takeup = s.backlash_takeup ∧
    (s.set_target_direction cp nm).1.max_output = s.max_output ∧
    (s.set_target_direction cp nm).1.min_output = s.min_output ∧
    (s.set_target_direction cp nm).1.Ki = s.Ki ∧
    (s.set_target_direction cp nm).1.integral = s.integral := by
  unfold Servo.set_target_direction
  dsimp only
  repeat' split
  all_goals simp

theorem Servo.set_target_tolcheck_preserves (s : Servo) (cp nm : Int) (p1 : List Int) :
    (s.set_target_tolcheck cp nm p1).state.drives_enabled = s.drives_enabled ∧
    (s.set_target_tolcheck cp nm p1).state.setpoint = s.setpoint ∧
    (s.set_target_tolcheck cp nm p1).state.original_setpoint = s.original_setpoint ∧
    (s.set_target_tolcheck cp nm p1).state.current_movement_is_forward =
      s.current_movement_is_forward ∧
    (s.set_target_tolcheck cp nm p1).state.max_output = s.max_output ∧
    (s.set_target_tolcheck cp nm p1).state.min_output = s.min_output ∧
    (s.set_target_tolcheck cp nm p1).state.Ki = s.Ki ∧
    (s.set_target_tolcheck cp nm p1).state.integral = s.integral := by
  unfold Servo.set_target_tolcheck
  dsimp only
  repeat' split
  all_goals simp

theorem Servo.control_output_preserves (s : Servo) (error dist now_us : Int) :
    (s.control_output error dist now_us).1.setpoint = s.setpoint ∧
    (s.control_output error dist now_us).1.original_setpoint = s.original_setpoint ∧
    (s.control_output error dist now_us).1.current_movement_is_forward =
      s.current_movement_is_forward ∧
    (s.control_output error dist now_us).1.stable_count = s.stable_count ∧
    (s.control_output error dist now_us).1.target_reached = s.target_reached ∧
    (s.control_output error dist now_us).1.backlash_active = s.backlash_active ∧
    (s.control_output error dist now_us).1.waiting_for_peel_idle_phase1 =
      s.waiting_for_peel_idle_phase1 ∧
    (s.control_output error dist now_us).1.drives_enabled = s.drives_enabled ∧
    (s.control_output error dist now_us).1.max_output = s.max_output ∧
    (s.control_output error dist now_us).1.min_output = s.min_output ∧
    (s.control_output error dist now_us).1.Ki = s.Ki ∧
    (s.control_output error dist now_us).1.peel_motor = s.peel_motor := by
  unfold Servo.control_output
  dsimp only
  repeat' split
  all_goals simp

theorem Servo.movement_control_preserves (s : Servo) (cp now_us : Int) :
    (s.movement_control cp now_us).1.setpoint = s.setpoint ∧
    (s.movement_control cp now_us).1.original_setpoint = s.original_setpoint ∧
    (s.movement_control cp now_us).1.current_movement_is_forward =
      s.current_movement_is_forward ∧
    (s.movement_control cp now_us).1.waiting_for_peel_idle_phase1 =
      s.waiting_for_peel_idle_phase1 ∧
    (s.movement_control cp now_us).1.drives_enabled = s.drives_enabled ∧
    (s.movement_control cp now_us).1.max_output = s.max_output ∧
    (s.movement_control cp now_us).1.min_output = s.min_output ∧
    (s.movement_control cp now_us).1.Ki = s.Ki ∧
    (s.movement_control cp now_us).1.peel_motor = s.peel_motor := by
  unfold Servo.movement_control
  dsimp only
  repeat' split
  all_goals simp [Servo.control_output_preserves]

/-! ## C10 -/

/-- C10: every call to set_target() first enables the drive hardware: after
set_target() returns, the drives are enabled, whatever their prior state. -/
theorem c10_set_target_enables (s : Servo) (target cp tu tm : Int) :
    (s.set_target target cp tu tm).state.drives_enabled = true := by
  unfold Servo.set_target
  dsimp only
  simp [Servo.set_target_tolcheck_preserves, Servo.set_target_direction_preserves]

/-! ## C7 -/

/-- C7 counterexample: constructing a Servo with a negative tolerance does not
fail; the value is silently normalised to its absolute value (tolerance -10
becomes 10), contradicting fails-at-construction / never-silently-clamped. -/
theorem c7_counterexample :
    (Servo.init false (1/20) (1/1000) (1/200) 30 80 5 200 (-10) 200 3 30 true false
        75 1000 (1/10) 100).tolerance = 10 ∧
    (Servo.init false (1/20) (1/1000) (1/200) 30 80 5 200 (-10) 200 3 30 true false
        75 1000 (1/10) 100).tolerance ≠ -10 := by
  constructor <;> simp [Servo.init]

/-- C7 amended: construction never rejects a configuration; instead max_output,
min_output, backlash_takeup, tolerance and ramp_ticks are silently replaced by
their absolute values, ramp_taper_percent is clamped into [0, 100], and the
peel default speed is replaced by its absolute value. -/
theorem c7_init_normalises (e : Bool) (Kp Ki Kd pt mo mi : ℚ)
    (bt tol rt su : Int) (rtp : ℚ) (br pe : Bool) (ps ptm : Int) (da dst : ℚ) :
    (Servo.init e Kp Ki Kd pt mo mi bt tol rt su rtp br pe ps ptm da dst).max_output = |mo| ∧
    (Servo.init e Kp Ki Kd pt mo mi bt tol rt su rtp br pe ps ptm da dst).min_output = |mi| ∧
    (Servo.init e Kp Ki Kd pt mo mi bt tol rt su rtp br pe ps ptm da dst).backlash_takeup = |bt| ∧
    (Servo.init e Kp Ki Kd pt mo mi bt tol rt su rtp br pe ps ptm da dst).tolerance = |tol| ∧
    (Servo.init e Kp Ki Kd pt mo mi bt tol rt su rtp br pe ps ptm da dst).ramp_ticks = |rt| ∧
    (Servo.init e Kp Ki Kd pt mo mi bt tol rt su rtp br pe ps ptm da dst).ramp_taper_percent =
      max 0 (min 100 rtp) ∧
    (Servo.init e Kp Ki Kd pt mo mi bt tol rt su rtp br pe ps ptm da dst).peel_motor.default_speed =
      |ps| := by
  simp [Servo.init, PeelMotor.init]

/-! ## C9 -/

/-- C9: run(direction, 0, speed) with a non-zero direction performs an immediate
stop: the motor transitions to Stopped with speed and timer zeroed, and if it
was moving a peel_set(0) command is issued, rather than starting a
zero-duration run. -/
theorem c9_zero_time_is_stop (p : PeelMotor) (now_ms d : Int) (sp : Option Int)
    (hd : d = 1 ∨ d = -1) :
    (p.run now_ms d (some 0) sp).1 =
      { p with current_state := PDir.stopped, current_actual_speed := 0,
               run_start_time_ms := 0, target_run_time_ms := 0 } ∧
    (p.current_state ≠ PDir.stopped → (p.run now_ms d (some 0) sp).2 = [0]) := by
  rcases hd with h | h <;> subst h <;>
    (unfold PeelMotor.run PeelMotor.dirstate PeelMotor._set_state
     dsimp only
     repeat' split
     all_goals simp_all)

/-- C9 witness: concrete instantiation with a forward-running motor. -/
theorem c9_zero_time_is_stop_witness :
    (((PeelMotor.init 75 1000).run 0 1 (some 1000) (some 75)).1.run 100 1 (some 0)
        (some 75)).1 =
      { ((PeelMotor.init 75 1000).run 0 1 (some 1000) (some 75)).1 with
          current_state := PDir.stopped, current_actual_speed := 0,
          run_start_time_ms := 0, target_run_time_ms := 0 } ∧
    (((PeelMotor.init 75 1000).run 0 1 (some 1000) (some 75)).1.current_state ≠
        PDir.stopped →
      (((PeelMotor.init 75 1000).run 0 1 (some 1000) (some 75)).1.run 100 1 (some 0)
          (some 75)).2 = [0]) :=
  c9_zero_time_is_stop ((PeelMotor.init 75 1000).run 0 1 (some 1000) (some 75)).1
    100 1 (some 75) (Or.inl rfl)

/-! ## C8 helper lemmas -/

theorem PeelMotor._set_state_forward (p : PeelMotor) (sp : Int)
    (h : ¬ (p.current_state = PDir.forward ∧ p.current_actual_speed = sp)) :
    p._set_state PDir.forward (some sp) =
      ({ p with current_state := PDir.forward, current_actual_speed := sp }, [sp]) := by
  by_cases h1 : p.current_state = PDir.forward <;>
    by_cases h2 : p.current_actual_speed = sp
  · exact absurd ⟨h1, h2⟩ h
  all_goals
    (unfold PeelMotor._set_state
     try dsimp only
     repeat' split
     all_goals simp_all)

theorem PeelMotor._set_state_reverse (p : PeelMotor) (sp : Int)
    (h : ¬ (p.current_state = PDir.reverse ∧ p.current_actual_speed = sp)) :
    p._set_state PDir.reverse (some sp) =
      ({ p with current_state := PDir.reverse, current_actual_speed := sp }, [-sp]) := by
  by_cases h1 : p.current_state = PDir.reverse <;>
    by_cases h2 : p.current_actual_speed = sp
  · exact absurd ⟨h1, h2⟩ h
  all_goals
    (unfold PeelMotor._set_state
     try dsimp only
     repeat' split
     all_goals simp_all)

/-! ## C8 -/

/-- C8: if the peel motor is already running in the commanded direction at the
commanded (normalised) speed, run() only resets the timer and issues no
actuator command; any call that changes direction or (normalised) speed
commands the actuator immediately and restarts the timer. -/
theorem c8_run_recommand (p : PeelMotor) (now_ms d t sp : Int) :
    ((PeelMotor.dirstate d = some p.current_state ∧ p.current_state ≠ PDir.stopped ∧
        min (|sp|) 100 = p.current_actual_speed ∧ 0 < t) →
      p.run now_ms d (some t) (some sp) =
        ({ p with run_start_time_ms := now_ms, target_run_time_ms := t }, [])) ∧
    (((d = 1 ∨ d = -1) ∧ 0 < t ∧
        (PeelMotor.dirstate d ≠ some p.current_state ∨
          min (|sp|) 100 ≠ p.current_actual_speed)) →
      (p.run now_ms d (some t) (some sp)).2 =
        [if d = 1 then min (|sp|) 100 else -(min (|sp|) 100)] ∧
      (p.run now_ms d (some t) (some sp)).1.run_start_time_ms = now_ms ∧
      (p.run now_ms d (some t) (some sp)).1.target_run_time_ms = t ∧
      (p.run now_ms d (some t) (some sp)).1.current_actual_speed = min (|sp|) 100 ∧
      (p.run now_ms d (some t) (some sp)).1.current_state =
        (if d = 1 then PDir.forward else PDir.reverse)) := by
  constructor
  · rintro ⟨h1, h2, h3, h4⟩
    unfold PeelMotor.run
    rw [h1]
    simp only [Option.getD_some]
    rw [if_neg (by omega), if_neg (by simp [h2]; omega), if_neg (by simp [h2, h3])]
  · rintro ⟨hd, ht, hch⟩
    rcases hd with h | h <;> subst h
    · have hds : PeelMotor.dirstate 1 = some PDir.forward := by
        norm_num [PeelMotor.dirstate]
      have hne : ¬ (p.current_state = PDir.forward ∧
          p.current_actual_speed = min (|sp|) 100) := by
        rcases hch with hc | hc
        · exact fun hx => hc (by rw [hds, hx.1])
        · exact fun hx => hc hx.2.symm
      have hsc : p.current_state ≠ PDir.forward ∨ p.current_state = PDir.stopped ∨
          p.current_actual_speed ≠ min (|sp|) 100 := by
        by_cases h1 : p.current_state = PDir.forward
        · exact Or.inr (Or.inr fun h2 => hne ⟨h1, h2⟩)
        · exact Or.inl h1
      unfold PeelMotor.run
      rw [hds]
      simp only [Option.getD_some]
      rw [if_neg (by omega), if_neg (by simp; omega), if_pos hsc,
        PeelMotor._set_state_forward p (min (|sp|) 100) hne]
      simp
    · have hds : PeelMotor.dirstate (-1) = some PDir.reverse := by
        norm_num [PeelMotor.dirstate]
      have hne : ¬ (p.current_state = PDir.reverse ∧
          p.current_actual_speed = min (|sp|) 100) := by
        rcases hch with hc | hc
        · exact fun hx => hc (by rw [hds, hx.1])
        · exact fun hx => hc hx.2.symm
      have hsc : p.current_state ≠ PDir.reverse ∨ p.current_state = PDir.stopped ∨
          p.current_actual_speed ≠ min (|sp|) 100 := by
        by_cases h1 : p.current_state = PDir.reverse
        · exact Or.inr (Or.inr fun h2 => hne ⟨h1, h2⟩)
        · exact Or.inl h1
      unfold PeelMotor.run
      rw [hds]
      simp only [Option.getD_some]
      rw [if_neg (by omega), if_neg (by simp; omega), if_pos hsc,
        PeelMotor._set_state_reverse p (min (|sp|) 100) hne]
      simp

/-- C8 witness: a motor running Forward at speed 75; re-running same
direction/speed only resets the timer with no command, while a speed change to
60 issues a command. -/
theorem c8_run_recommand_witness :
    ((PeelMotor.init 75 1000).run 0 1 (some 1000) (some 75)).1.run 400 1 (some 500)
        (some 75) =
      ({ ((PeelMotor.init 75 1000).run 0 1 (some 1000) (some 75)).1 with
          run_start_time_ms := 400, target_run_time_ms := 500 }, []) ∧
    (((PeelMotor.init 75 1000).run 0 1 (some 1000) (some 75)).1.run 400 1 (some 500)
        (some 60)).2 =
      [if (1 : Int) = 1 then min (|(60 : Int)|) 100 else -(min (|(60 : Int)|) 100)] :=
  ⟨(c8_run_recommand ((PeelMotor.init 75 1000).run 0 1 (some 1000) (some 75)).1
      400 1 500 75).1 ⟨by decide, by decide, by decide, by decide⟩,
   ((c8_run_recommand ((PeelMotor.init 75 1000).run 0 1 (some 1000) (some 75)).1
      400 1 500 60).2 ⟨Or.inl rfl, by decide, Or.inr (by decide)⟩).1⟩

/-! ## C6 -/

/-- One idle tick: with target_reached set and no pending phase-1 wait, update
returns false, issues no drive command, and leaves every Servo field except the
peel_motor unchanged. -/
theorem Servo.update_idle_step (s : Servo) (cp tu tm : Int)
    (h1 : s.target_reached = true) (h2 : s.waiting_for_peel_idle_phase1 = false) :
    (s.update cp tu tm).state =
      { s with peel_motor := (s.update cp tu tm).state.peel_motor } ∧
    (s.update cp tu tm).drive_cmds = [] ∧
    (s.update cp tu tm).moving = false := by
  unfold Servo.update
  dsimp only
  repeat' split
  all_goals simp_all

/-- C6: once target_reached is true and the controller is not waiting on the
peel motor, every subsequent tick returns false, issues no drive command, and
leaves every controller field except the contained peel sequencer unchanged. -/
theorem c6_idempotent_idle (s : Servo) (l : List (Int × Int × Int))
    (h1 : s.target_reached = true) (h2 : s.waiting_for_peel_idle_phase1 = false) :
    (s.run_ticks l).2.1 = [] ∧
    (∀ b ∈ (s.run_ticks l).2.2, b = false) ∧
    (s.run_ticks l).1 = { s with peel_motor := (s.run_ticks l).1.peel_motor } := by
  induction l generalizing s with
  | nil => simp [Servo.run_ticks]
  | cons i rest ih =>
    obtain ⟨hs, hd, hm⟩ := Servo.update_idle_step s i.1 i.2.1 i.2.2 h1 h2
    have h1' : (s.update i.1 i.2.1 i.2.2).state.target_reached = true := by
      rw [hs]; exact h1
    have h2' : (s.update i.1 i.2.1 i.2.2).state.waiting_for_peel_idle_phase1 = false := by
      rw [hs]; exact h2
    obtain ⟨ihd, ihm, ihs⟩ := ih (s.update i.1 i.2.1 i.2.2).state h1' h2'
    refine ⟨?_, ?_, ?_⟩
    · simp [Servo.run_ticks, hd, ihd]
    · intro b hb
      simp only [Servo.run_ticks, List.mem_cons] at hb
      rcases hb with hb | hb
      · rw [hb, hm]
      · exact ihm b hb
    · simp only [Servo.run_ticks]
      rw [ihs, hs]
      try rfl

/-! ## C1 helper lemmas -/

/-- set_target with target < current: the direction branch sets up Phase 1. -/
theorem Servo.set_target_direction_reverse (s : Servo) (cp nm : Int)
    (h : s.original_setpoint < cp) (hw : s.waiting_for_peel_idle_phase1 = false) :
    (s.set_target_direction cp nm).1.setpoint =
      s.original_setpoint - (s.ramp_ticks + s.backlash_takeup) ∧
    (s.set_target_direction cp nm).1.backlash_active = true ∧
    (s.set_target_direction cp nm).1.current_movement_is_forward = false ∧
    (s.set_target_direction cp nm).1.waiting_for_peel_idle_phase1 =
      (s.peel_motor_enabled_by_servo && ! s.peel_motor.is_idle) ∧
    (s.set_target_direction cp nm).1.target_reached = s.target_reached := by
  unfold Servo.set_target_direction
  dsimp only
  rw [if_pos h]
  repeat' split
  all_goals simp_all

/-- During Phase 1 (backlash active, moving backwards) the within-tolerance check
of set_target leaves the state untouched. -/
theorem Servo.set_target_tolcheck_phase1 (s : Servo) (cp nm : Int) (p1 : List Int)
    (h1 : s.backlash_active = true) (h2 : s.current_movement_is_forward = false) :
    (s.set_target_tolcheck cp nm p1).state = s := by
  unfold Servo.set_target_tolcheck
  dsimp only
  repeat' split
  all_goals simp_all

/-- Phase-1 completion with the peel motor idle or disabled: the setpoint is
substituted back to the original target and the move becomes the forward leg. -/
theorem Servo.update_phase1_check_complete (s : Servo) (cp tu tm : Int) (pacc : List Int)
    (h3 : s.backlash_active = true) (h4 : s.current_movement_is_forward = false)
    (h5 : s.waiting_for_peel_idle_phase1 = false) (h6 : cp ≤ s.setpoint)
    (h7 : s.peel_motor_enabled_by_servo = false ∨ s.peel_motor.current_state = PDir.stopped) :
    (s.update_phase1_check cp tu tm pacc).state.setpoint = s.original_setpoint ∧
    (s.update_phase1_check cp tu tm pacc).state.current_movement_is_forward = true ∧
    (s.update_phase1_check cp tu tm pacc).state.waiting_for_peel_idle_phase1 = false := by
  unfold Servo.update_phase1_check
  dsimp only
  repeat' split
  all_goals simp_all [Servo.movement_control_preserves, PeelMotor.is_idle,
    PeelMotor.run, PeelMotor.dirstate, PeelMotor._set_state]

/-! ## C1 -/

/-- C1: a set_target strictly below the current position enters the
backlash-compensated reverse leg: setpoint = target - (ramp_ticks +
backlash_takeup), the move is marked as a reverse leg (backlash active, not
forward), waiting-for-peel exactly when the peel motor is enabled and not
idle, and the target is not yet reached.  And on a later tick of a reverse
leg, once position <= setpoint and the peel motor is idle (or disabled), the
controller substitutes setpoint = target and switches to the forward leg. -/
theorem c1_reverse_leg (s : Servo) (target cp tu tm : Int)
    (s2 : Servo) (cp2 tu2 tm2 : Int)
    (hA : target < cp)
    (hB1 : s2.drives_enabled = true) (hB2 : s2.target_reached = false)
    (hB3 : s2.backlash_active = true) (hB4 : s2.current_movement_is_forward = false)
    (hB5 : s2.waiting_for_peel_idle_phase1 = false) (hB6 : cp2 ≤ s2.setpoint)
    (hB7 : s2.peel_motor_enabled_by_servo = false ∨
      s2.peel_motor.current_state = PDir.stopped) :
    ((s.set_target target cp tu tm).state.setpoint =
        target - (s.ramp_ticks + s.backlash_takeup) ∧
      (s.set_target target cp tu tm).state.backlash_active = true ∧
      (s.set_target target cp tu tm).state.current_movement_is_forward = false ∧
      (s.set_target target cp tu tm).state.target_reached = false ∧
      (s.set_target target cp tu tm).state.waiting_for_peel_idle_phase1 =
        (s.peel_motor_enabled_by_servo && ! s.peel_motor.is_idle)) ∧
    ((s2.update cp2 tu2 tm2).state.setpoint = s2.original_setpoint ∧
      (s2.update cp2 tu2 tm2).state.current_movement_is_forward = true ∧
      (s2.update cp2 tu2 tm2).state.waiting_for_peel_idle_phase1 = false) := by
  constructor
  · have hs0 : ∀ s0 : Servo, s0.original_setpoint = target → s0.original_setpoint < cp :=
      fun s0 h0 => h0 ▸ hA
    unfold Servo.set_target
    dsimp only
    obtain ⟨hd1, hd2, hd3, hd4, hd5⟩ :=
      Servo.set_target_direction_reverse
        { s with drives_enabled := true,
                 original_setpoint := target, target_reached := false,
                 backlash_active := false,
                 waiting_for_peel_idle_phase1 := false } cp tm (hs0 _ rfl) rfl
    rw [Servo.set_target_tolcheck_phase1 _ cp tm _ (by simpa using hd2)
      (by simpa using hd3)]
    simp_all
  · have hpu : (if s2.peel_motor_enabled_by_servo = true
        then s2.peel_motor.update tm2 else (s2.peel_motor, [])).1 = s2.peel_motor := by
      rcases hB7 with h | h
      · rw [h]; simp
      · by_cases he : s2.peel_motor_enabled_by_servo = true
        · rw [he]; unfold PeelMotor.update; rw [if_pos (Or.inl h)]; simp
        · simp [he]
    unfold Servo.update
    dsimp only
    rw [if_neg (by simp [hB1]), if_neg (by simp [hB2]), if_neg (by simp [hB5])]
    rw [hpu]
    have hc := Servo.update_phase1_check_complete
      { s2 with peel_motor := s2.peel_motor } cp2 tu2 tm2
      (if s2.peel_motor_enabled_by_servo = true
          then s2.peel_motor.update tm2 else (s2.peel_motor, [])).2
      (by simpa using hB3) (by simpa using hB4) (by simpa using hB5)
      (by simpa using hB6) (by simpa using hB7)
    simpa using hc

/-- C1 witness: set_target(-100) from 300 (defaults: ramp_ticks 200,
backlash_takeup 200) gives setpoint -500 on the reverse leg, and a tick at
position -510 with the peel motor disabled substitutes the original target. -/
theorem c1_reverse_leg_witness :
    (((defaultServo.set_target (-100) 300 0 0).state.setpoint =
        -100 - (defaultServo.ramp_ticks + defaultServo.backlash_takeup) ∧
      (defaultServo.set_target (-100) 300 0 0).state.backlash_active = true ∧
      (defaultServo.set_target (-100) 300 0 0).state.current_movement_is_forward = false ∧
      (defaultServo.set_target (-100) 300 0 0).state.target_reached = false ∧
      (defaultServo.set_target (-100) 300 0 0).state.waiting_for_peel_idle_phase1 =
        (defaultServo.peel_motor_enabled_by_servo && ! defaultServo.peel_motor.is_idle)) ∧
    ((c1Spot.update (-510) 20000 20).state.setpoint = c1Spot.original_setpoint ∧
      (c1Spot.update (-510) 20000 20).state.current_movement_is_forward = true ∧
      (c1Spot.update (-510) 20000 20).state.waiting_for_peel_idle_phase1 = false)) :=
  c1_reverse_leg defaultServo (-100) 300 0 0 c1Spot (-510) 20000 20
    (by decide) (by decide) (by decide) (by decide) (by decide) (by decide)
    (by decide) (Or.inl (by decide))

/-- C6 witness: the freshly constructed (idle) default controller ticks twice
with no drive commands, both ticks returning false. -/
theorem c6_idempotent_idle_witness :
    (defaultServo.run_ticks [(0, 0, 0), (5, 20000, 20)]).2.1 = [] ∧
    (∀ b ∈ (defaultServo.run_ticks [(0, 0, 0), (5, 20000, 20)]).2.2, b = false) ∧
    (defaultServo.run_ticks [(0, 0, 0), (5, 20000, 20)]).1 =
      { defaultServo with
          peel_motor := (defaultServo.run_ticks [(0, 0, 0), (5, 20000, 20)]).1.peel_motor } :=
  c6_idempotent_idle defaultServo [(0, 0, 0), (5, 20000, 20)] (by decide) (by decide)

/-! ## C3 -/

/-- C3: on a tick of a forward leg where the position exceeds the setpoint by
strictly more than the tolerance, the controller declares the move done: it
commands exactly one zero drive, sets target_reached, and returns false. -/
theorem c3_overshoot_stop (s : Servo) (cp tu tm : Int)
    (h1 : s.drives_enabled = true) (h2 : s.target_reached = false)
    (h3 : s.waiting_for_peel_idle_phase1 = false)
    (h4 : s.current_movement_is_forward = true)
    (h5 : cp > s.setpoint) (h6 : |s.setpoint - cp| > s.tolerance) :
    (s.update cp tu tm).state.target_reached = true ∧
    (s.update cp tu tm).drive_cmds = [0] ∧
    (s.update cp tu tm).moving = false := by
  unfold Servo.update Servo.update_phase1_check
  dsimp only
  rw [if_neg (by simp [h1]), if_neg (by simp [h2]), if_neg (by simp [h3]),
    if_neg (by simp [h4]), if_neg (by simp [h3])]
  unfold Servo.movement_control
  dsimp only
  rw [if_pos (by exact ⟨h4, h5, h6⟩)]
  repeat' split
  all_goals simp_all

/-- C3 witness: moving toward 1000, a tick at position 1020 (tolerance 10)
fail-stops: one zero drive command, target_reached, return false. -/
theorem c3_overshoot_stop_witness :
    (c3Spot.update 1020 20000 20).state.target_reached = true ∧
    (c3Spot.update 1020 20000 20).drive_cmds = [0] ∧
    (c3Spot.update 1020 20000 20).moving = false :=
  c3_overshoot_stop c3Spot 1020 20000 20 (by decide) (by decide) (by decide)
    (by decide) (by decide) (by decide)

/-! ## C4 helper lemmas -/

/-- On an active forward leg (enabled, not reached, not waiting), update routes
directly to the movement-control logic. -/
theorem Servo.update_forward_route (s : Servo) (cp tu tm : Int)
    (h1 : s.drives_enabled = true) (h2 : s.target_reached = false)
    (h3 : s.waiting_for_peel_idle_phase1 = false)
    (h4 : s.current_movement_is_forward = true) :
    s.update cp tu tm =
      { state := (Servo.movement_control
          { s with peel_motor := (if s.peel_motor_enabled_by_servo = true
              then s.peel_motor.update tm else (s.peel_motor, [])).1 } cp tu).1,
        drive_cmds := (Servo.movement_control
          { s with peel_motor := (if s.peel_motor_enabled_by_servo = true
              then s.peel_motor.update tm else (s.peel_motor, [])).1 } cp tu).2.1,
        peel_cmds := (if s.peel_motor_enabled_by_servo = true
            then s.peel_motor.update tm else (s.peel_motor, [])).2,
        moving := (Servo.movement_control
          { s with peel_motor := (if s.peel_motor_enabled_by_servo = true
              then s.peel_motor.update tm else (s.peel_motor, [])).1 } cp tu).2.2 } := by
  unfold Servo.update Servo.update_phase1_check
  dsimp only
  rw [if_neg (by simp [h1]), if_neg (by simp [h2]), if_neg (by simp [h3]),
    if_neg (by simp [h4]), if_neg (by simp [h3])]

/-- Forward-leg in-tolerance tick that completes the stability count. -/
theorem Servo.movement_control_complete (s : Servo) (cp tu : Int)
    (h4 : s.current_movement_is_forward = true)
    (ha : |s.setpoint - cp| ≤ s.tolerance)
    (hb : s.stable_count + 1 ≥ s.stable_updates) :
    (s.movement_control cp tu).1.target_reached = true ∧
    (s.movement_control cp tu).1.stable_count = s.stable_count + 1 ∧
    (s.movement_control cp tu).2.1 = [0] ∧
    (s.movement_control cp tu).2.2 = false := by
  unfold Servo.movement_control
  dsimp only
  rw [if_neg (by rintro ⟨-, -, hc⟩; exact absurd ha (not_le.mpr hc)),
    if_pos ⟨ha, by simp [h4], hb⟩]
  repeat' split
  all_goals simp_all

/-- Forward-leg in-tolerance tick before the stability count completes: the
counter advances, the drive stays zeroed (tolerance ≤ ramp_ticks), and the
tick reports motion still in progress. -/
theorem Servo.movement_control_stable_tick (s : Servo) (cp tu : Int)
    (h4 : s.current_movement_is_forward = true)
    (hM : 0 ≤ s.max_output) (hTR : s.tolerance ≤ s.ramp_ticks)
    (ha : |s.setpoint - cp| ≤ s.tolerance)
    (hb : s.stable_count + 1 < s.stable_updates) :
    (s.movement_control cp tu).1.stable_count = s.stable_count + 1 ∧
    (s.movement_control cp tu).1.target_reached = s.target_reached ∧
    (s.movement_control cp tu).2.2 = true ∧
    ∀ c ∈ (s.movement_control cp tu).2.1, c = 0 := by
  unfold Servo.movement_control
  dsimp only
  rw [if_neg (by rintro ⟨-, -, hc⟩; exact absurd ha (not_le.mpr hc)),
    if_neg (by rintro ⟨-, -, hge⟩; omega),
    if_pos ha, if_pos (by simp [h4])]
  unfold Servo.control_output
  dsimp only
  rw [if_neg (by simp [h4]),
    if_neg (by simp only [not_lt]; exact le_trans ha hTR),
    if_pos ha]
  have hz : max (min (0 : ℚ) s.max_output) (-s.max_output) = 0 := by
    rw [min_eq_left hM, max_eq_left (neg_nonpos.mpr hM)]
  simp_all

/-- Forward-leg tick short of the setpoint by more than the tolerance: the
stability counter is reset to zero. -/
theorem Servo.movement_control_reset (s : Servo) (cp tu : Int)
    (h4 : s.current_movement_is_forward = true)
    (h0 : 0 ≤ s.tolerance) (hgt : s.setpoint - cp > s.tolerance) :
    (s.movement_control cp tu).1.stable_count = 0 := by
  have habs : |s.setpoint - cp| = s.setpoint - cp := abs_of_pos (by omega)
  unfold Servo.movement_control
  dsimp only
  rw [if_neg (by rintro ⟨-, hcp, -⟩; omega),
    if_neg (by rintro ⟨hd, -, -⟩; rw [habs] at hd; omega),
    if_neg (by rw [habs]; omega)]
  have hpres := Servo.control_output_preserves
    { s with stable_count := 0 } (s.setpoint - cp) (|s.setpoint - cp|) tu
  simp_all

/-! ## C4 -/

/-- C4 counterexample: a forward-leg tick at position 1020 with setpoint 1000
and tolerance 10 has |setpoint - position| > tolerance, yet the stability
counter is left at 2 (the overshoot fail-stop returns before the reset),
contradicting the claim that any out-of-tolerance tick resets it to 0. -/
theorem c4_counterexample :
    c4Spot.current_movement_is_forward = true ∧
    c4Spot.stable_count = 2 ∧
    |c4Spot.setpoint - 1020| > c4Spot.tolerance ∧
    (c4Spot.update 1020 60000 60).state.stable_count = 2 := by
  refine ⟨by decide, by decide, by decide, by decide⟩

/-- C4 amended: on an active forward-leg tick with the construction-normalised
configuration (0 ≤ max_output, 0 ≤ tolerance ≤ ramp_ticks): an in-tolerance
tick increments the stable counter; reaching stable_updates zeroes the drive,
sets target_reached and returns false; an earlier in-tolerance tick issues
only zero drive commands and returns true; and a tick that is short of the
setpoint by more than the tolerance (so not an overshoot fail-stop) resets the
counter to 0. -/
theorem c4_completion_rule (s : Servo) (cp tu tm : Int)
    (h1 : s.drives_enabled = true) (h2 : s.target_reached = false)
    (h3 : s.waiting_for_peel_idle_phase1 = false)
    (h4 : s.current_movement_is_forward = true)
    (hM : 0 ≤ s.max_output) (h0 : 0 ≤ s.tolerance)
    (hTR : s.tolerance ≤ s.ramp_ticks) :
    (|s.setpoint - cp| ≤ s.tolerance → s.stable_count + 1 ≥ s.stable_updates →
      (s.update cp tu tm).state.target_reached = true ∧
      (s.update cp tu tm).state.stable_count = s.stable_count + 1 ∧
      (s.update cp tu tm).drive_cmds = [0] ∧
      (s.update cp tu tm).moving = false) ∧
    (|s.setpoint - cp| ≤ s.tolerance → s.stable_count + 1 < s.stable_updates →
      (s.update cp tu tm).state.stable_count = s.stable_count + 1 ∧
      (s.update cp tu tm).state.target_reached = false ∧
      (∀ c ∈ (s.update cp tu tm).drive_cmds, c = 0) ∧
      (s.update cp tu tm).moving = true) ∧
    (s.setpoint - cp > s.tolerance →
      (s.update cp tu tm).state.stable_count = 0) := by
  rw [Servo.update_forward_route s cp tu tm h1 h2 h3 h4]
  refine ⟨fun ha hb => ?_, fun ha hb => ?_, fun hgt => ?_⟩
  · have hc := Servo.movement_control_complete
      { s with peel_motor := (if s.peel_motor_enabled_by_servo = true
          then s.peel_motor.update tm else (s.peel_motor, [])).1 } cp tu
      (by simpa using h4) (by simpa using ha) (by simpa using hb)
    simpa using hc
  · obtain ⟨ha1, ha2, ha3, ha4⟩ := Servo.movement_control_stable_tick
      { s with peel_motor := (if s.peel_motor_enabled_by_servo = true
          then s.peel_motor.update tm else (s.peel_motor, [])).1 } cp tu
      (by simpa using h4) (by simpa using hM) (by simpa using hTR)
      (by simpa using ha) (by simpa using hb)
    exact ⟨by simpa using ha1, by simpa [h2] using ha2,
      by simpa using ha4, by simpa using ha3⟩
  · have hc := Servo.movement_control_reset
      { s with peel_motor := (if s.peel_motor_enabled_by_servo = true
          then s.peel_motor.update tm else (s.peel_motor, [])).1 } cp tu
      (by simpa using h4) (by simpa using h0) (by simpa using hgt)
    simpa using hc

/-- C4 witness: toward setpoint 1000 with tolerance 10, stable_updates 3: the
first two ticks at 995/996 only zero the drive and return true, the third
in-tolerance tick completes and returns false, and a tick far below the
setpoint resets the counter. -/
theorem c4_completion_rule_witness :
    (|c4Spot.setpoint - (997 : Int)| ≤ c4Spot.tolerance ∧
      c4Spot.stable_count + 1 ≥ c4Spot.stable_updates ∧
      (c4Spot.update 997 60000 60).state.target_reached = true ∧
      (c4Spot.update 997 60000 60).state.stable_count = c4Spot.stable_count + 1 ∧
      (c4Spot.update 997 60000 60).drive_cmds = [0] ∧
      (c4Spot.update 997 60000 60).moving = false) ∧
    (c4Spot.setpoint - (500 : Int) > c4Spot.tolerance ∧
      (c4Spot.update 500 60000 60).state.stable_count = 0) :=
  ⟨⟨by decide, by decide,
    (c4_completion_rule c4Spot 997 60000 60 (by decide) (by decide) (by decide)
      (by decide) (by decide) (by decide)
      (by decide)).1 (by decide) (by decide)⟩,
   ⟨by decide,
    (c4_completion_rule c4Spot 500 60000 60 (by decide) (by decide) (by decide)
      (by decide) (by decide) (by decide)
      (by decide)).2.2 (by decide)⟩⟩

/-! ## C2 helper definitions and lemmas -/

/-- Clamping x into [-m, m] bounds its magnitude by |m| (even for negative m,
where the clamp collapses to -m). -/
theorem clamp_abs_le (x m : ℚ) : |max (min x m) (-m)| ≤ |m| := by
  rcases le_total 0 m with hm | hm
  · rw [abs_of_nonneg hm, abs_le]
    constructor
    · exact le_max_right _ _
    · exact max_le (le_trans (min_le_right _ _) le_rfl) (by linarith)
  · have h1 : min x m ≤ m := min_le_right _ _
    have h2 : max (min x m) (-m) = -m := max_eq_right (by linarith)
    rw [h2, abs_neg]

/-- control_output either leaves the integral unchanged or clamps it to within
|max_integral|. -/
theorem Servo.control_output_integral (s : Servo) (e d t : Int) :
    (s.control_output e d t).1.integral = s.integral ∨
    |(s.control_output e d t).1.integral| ≤ |s.max_integral_value| := by
  unfold Servo.control_output Servo.max_integral_value
  dsimp only
  repeat' split
  all_goals simp_all
  all_goals exact Or.inr (clamp_abs_le _ _)

/-- control_output keeps the integral within the anti-windup bound. -/
theorem Servo.control_output_integral_bound (s : Servo) (e d t : Int)
    (h : |s.integral| ≤ |s.max_integral_value|) :
    |(s.control_output e d t).1.integral| ≤ |s.max_integral_value| := by
  rcases Servo.control_output_integral s e d t with h1 | h1
  · rw [h1]; exact h
  · exact h1

/-- movement_control keeps the integral within the anti-windup bound. -/
theorem Servo.movement_control_integral_bound (s : Servo) (cp tu : Int)
    (h : |s.integral| ≤ |s.max_integral_value|) :
    |(s.movement_control cp tu).1.integral| ≤ |s.max_integral_value| := by
  unfold Servo.movement_control
  dsimp only
  repeat' split
  all_goals
    first
      | simpa using h
      | exact Servo.control_output_integral_bound _ _ _ _ h

/-- update_phase1_check does not change the PID configuration. -/
theorem Servo.update_phase1_check_config (s : Servo) (cp tu tm : Int) (pacc : List Int) :
    (s.update_phase1_check cp tu tm pacc).state.Ki = s.Ki ∧
    (s.update_phase1_check cp tu tm pacc).state.max_output = s.max_output ∧
    (s.update_phase1_check cp tu tm pacc).state.min_output = s.min_output := by
  unfold Servo.update_phase1_check
  dsimp only
  repeat' split
  all_goals simp_all [Servo.movement_control_preserves]

/-- update does not change the PID configuration (gains and output limits). -/
theorem Servo.update_config (s : Servo) (cp tu tm : Int) :
    (s.update cp tu tm).state.Ki = s.Ki ∧
    (s.update cp tu tm).state.max_output = s.max_output ∧
    (s.update cp tu tm).state.min_output = s.min_output := by
  unfold Servo.update
  dsimp only
  repeat' split
  all_goals simp_all [Servo.update_phase1_check_config]

/-- update_phase1_check keeps the integral within the anti-windup bound. -/
theorem Servo.update_phase1_check_integral_bound (s : Servo) (cp tu tm : Int)
    (pacc : List Int) (h : |s.integral| ≤ |s.max_integral_value|) :
    |(s.update_phase1_check cp tu tm pacc).state.integral| ≤ |s.max_integral_value| := by
  have h0 : ∀ q : ℚ, |(0 : ℚ)| ≤ |q| := fun q => by simpa using abs_nonneg q
  unfold Servo.update_phase1_check
  dsimp only
  repeat' split
  all_goals
    first
      | simpa using h
      | exact Servo.movement_control_integral_bound _ _ _ h
      | exact Servo.movement_control_integral_bound _ _ _ (h0 _)
      | simpa using h0 _

/-- One tick keeps the integral within the anti-windup bound. -/
theorem Servo.update_integral_bound (s : Servo) (cp tu tm : Int)
    (h : |s.integral| ≤ |s.max_integral_value|) :
    |(s.update cp tu tm).state.integral| ≤ |s.max_integral_value| := by
  unfold Servo.update
  dsimp only
  repeat' split
  all_goals
    first
      | simpa using h
      | exact Servo.update_phase1_check_integral_bound _ _ _ _ _ h

/-! ## C2 -/

/-- C2 counterexample: with Ki = -1 (nonzero) the claimed bound max_output / Ki
is the negative number -80, so |integral| <= max_output / Ki fails after a
tick even though the integral is still 0. -/
theorem c2_counterexample :
    cNegKi.Ki ≠ 0 ∧
    ¬ (|(cNegKi.update 0 0 0).state.integral| ≤ cNegKi.max_output / cNegKi.Ki) := by
  obtain ⟨hs, -, -⟩ := Servo.update_idle_step cNegKi 0 0 0
    (by norm_num [cNegKi, Servo.init]) (by norm_num [cNegKi, Servo.init])
  constructor
  · norm_num [cNegKi, Servo.init]
  · rw [hs]
    norm_num [cNegKi, Servo.init]

/-- C2 amended: over any sequence of ticks, if the integral starts within the
anti-windup bound |max_output / Ki| (for Ki != 0; |max_output| for Ki = 0) --
which holds from construction and from every set_target, both of which zero
it -- it stays within that bound after every tick.  For the normalised
configuration (max_output >= 0) and Ki > 0 this is exactly
|integral| <= max_output / Ki, and for Ki = 0 it is |integral| <= max_output. -/
theorem c2_integral_antiwindup (s : Servo) (l : List (Int × Int × Int))
    (hM : 0 ≤ s.max_output) (h : |s.integral| ≤ |s.max_integral_value|) :
    |(s.run_ticks l).1.integral| ≤ |s.max_integral_value| ∧
    (0 < s.Ki → |(s.run_ticks l).1.integral| ≤ s.max_output / s.Ki) ∧
    (s.Ki = 0 → |(s.run_ticks l).1.integral| ≤ s.max_output) := by
  have main : ∀ (l : List (Int × Int × Int)) (s : Servo),
      |s.integral| ≤ |s.max_integral_value| →
      |(s.run_ticks l).1.integral| ≤ |s.max_integral_value| ∧
      (s.run_ticks l).1.max_integral_value = s.max_integral_value := by
    intro l
    induction l with
    | nil => intro s hs; exact ⟨hs, rfl⟩
    | cons i rest ih =>
      intro s hs
      have hstep := Servo.update_integral_bound s i.1 i.2.1 i.2.2 hs
      obtain ⟨hKi, hmax, -⟩ := Servo.update_config s i.1 i.2.1 i.2.2
      have hmiv : (s.update i.1 i.2.1 i.2.2).state.max_integral_value =
          s.max_integral_value := by
        unfold Servo.max_integral_value
        rw [hKi, hmax]
      obtain ⟨ih1, ih2⟩ := ih (s.update i.1 i.2.1 i.2.2).state (by rw [hmiv]; exact hstep)
      refine ⟨?_, ?_⟩
      · simpa [Servo.run_ticks, hmiv] using ih1
      · simpa [Servo.run_ticks, hmiv] using ih2
  obtain ⟨h1, -⟩ := main l s h
  refine ⟨h1, fun hKi => ?_, fun hKi => ?_⟩
  · have hv : s.max_integral_value = s.max_output / s.Ki := by
      unfold Servo.max_integral_value
      rw [if_pos (by positivity)]
    have hnn : 0 ≤ s.max_output / s.Ki := div_nonneg hM (le_of_lt hKi)
    calc |(s.run_ticks l).1.integral| ≤ |s.max_integral_value| := h1
      _ = s.max_output / s.Ki := by rw [hv, abs_of_nonneg hnn]
  · have hv : s.max_integral_value = s.max_output := by
      unfold Servo.max_integral_value
      rw [if_neg (by simp [hKi])]
    calc |(s.run_ticks l).1.integral| ≤ |s.max_integral_value| := h1
      _ = s.max_output := by rw [hv, abs_of_nonneg hM]

/-- C2 witness: from a fresh forward move (integral 0) of the default
controller (Ki = 1/1000 > 0, max_output 80), three ticks keep the integral
within max_output / Ki = 80000. -/
theorem c2_integral_antiwindup_witness :
    |(c3Spot.run_ticks [(300, 20000, 20), (600, 40000, 40), (920, 60000, 60)]).1.integral| ≤
        |c3Spot.max_integral_value| ∧
    (0 < c3Spot.Ki →
      |(c3Spot.run_ticks [(300, 20000, 20), (600, 40000, 40), (920, 60000, 60)]).1.integral| ≤
        c3Spot.max_output / c3Spot.Ki) ∧
    (c3Spot.Ki = 0 →
      |(c3Spot.run_ticks [(300, 20000, 20), (600, 40000, 40), (920, 60000, 60)]).1.integral| ≤
        c3Spot.max_output) :=
  c2_integral_antiwindup c3Spot [(300, 20000, 20), (600, 40000, 40), (920, 60000, 60)]
    (by decide)
    (by
      have h1 : c3Spot.integral = 0 := by decide
      rw [h1]
      simpa using abs_nonneg c3Spot.max_integral_value)

/-! ## C5 helper lemmas -/

/-- Final clamp of a zero output is zero when max_output is nonnegative. -/
theorem final_clamp_zero (M : ℚ) (hM : 0 ≤ M) : max (min 0 M) (-M) = 0 := by
  rw [min_eq_left hM, max_eq_left (neg_nonpos.mpr hM)]

/-- Final clamp is the identity on [-M, M], and a value in [m, M] has magnitude
in [m, M]. -/
theorem final_clamp_pos_range (m M x : ℚ) (h0 : 0 ≤ m) (hx : m ≤ x) (hx2 : x ≤ M) :
    max (min x M) (-M) = x ∧ m ≤ |x| ∧ |x| ≤ M := by
  have hxn : 0 ≤ x := le_trans h0 hx
  have hM : 0 ≤ M := le_trans hxn hx2
  refine ⟨?_, ?_, ?_⟩
  · rw [min_eq_left hx2, max_eq_left (by linarith)]
  · rw [abs_of_nonneg hxn]; exact hx
  · rw [abs_of_nonneg hxn]; exact hx2

/-- A value in [-M, -m] passes the final clamp unchanged with magnitude in
[m, M]. -/
theorem final_clamp_neg_range (m M x : ℚ) (h0 : 0 ≤ m) (hx : -M ≤ x) (hx2 : x ≤ -m) :
    max (min x M) (-M) = x ∧ m ≤ |x| ∧ |x| ≤ M := by
  have hxn : x ≤ 0 := le_trans hx2 (by linarith)
  have hM : 0 ≤ M := by nlinarith
  refine ⟨?_, ?_, ?_⟩
  · rw [min_eq_left (by linarith), max_eq_left hx]
  · rw [abs_of_nonpos hxn]; linarith
  · rw [abs_of_nonpos hxn]; linarith

/-- The Phase-1 reverse interpolation, after its explicit clamp, lies in
[-max_output, -min_output]. -/
theorem phase1_out_range (m M y : ℚ) (h1 : m ≤ M) :
    -M ≤ max (-M) (min y (-m)) ∧ max (-M) (min y (-m)) ≤ -m :=
  ⟨le_max_left _ _, max_le (by linarith) (min_le_right _ _)⟩

/-- A clamped progress value lies in [0, 1]. -/
theorem progress_range (p : ℚ) : 0 ≤ max 0 (min 1 p) ∧ max 0 (min 1 p) ≤ 1 :=
  ⟨le_max_left _ _, max_le (by norm_num) (min_le_left _ _)⟩

/-- The ramp output min_ramp + (M - min_ramp) * progress lies in [min_ramp, M]
for progress in [0, 1] and min_ramp ≤ M. -/
theorem ramp_out_range (r M p : ℚ) (hr : r ≤ M) (hp0 : 0 ≤ p) (hp1 : p ≤ 1) :
    r ≤ r + (M - r) * p ∧ r + (M - r) * p ≤ M := by
  constructor
  · nlinarith
  · nlinarith

/-- The min_ramp_speed value min (max t m) M lies in [m, M] when m ≤ M. -/
theorem min_ramp_range (t m M : ℚ) (h1 : m ≤ M) :
    m ≤ min (max t m) M ∧ min (max t m) M ≤ M :=
  ⟨le_min (le_max_right _ _) h1, min_le_right _ _⟩

/-- The clamped PID output min (max x m) M lies in [m, M] when m ≤ M. -/
theorem pid_out_range (x m M : ℚ) (h1 : m ≤ M) :
    m ≤ min (max x m) M ∧ min (max x m) M ≤ M :=
  ⟨le_min (le_max_right _ _) h1, min_le_right _ _⟩

/-- Phase-1 output after both clamps: magnitude in [min_output, max_output]. -/
theorem phase1_final (m M y : ℚ) (h0 : 0 ≤ m) (h1 : m ≤ M) :
    |max (min (max (-M) (min y (-m))) M) (-M)| ≤ M ∧
    (max (min (max (-M) (min y (-m))) M) (-M) = 0 ∨
      m ≤ |max (min (max (-M) (min y (-m))) M) (-M)|) := by
  obtain ⟨ha, hb⟩ := phase1_out_range m M y h1
  obtain ⟨hc, hd, he⟩ := final_clamp_neg_range m M _ h0 ha hb
  rw [hc]
  exact ⟨he, Or.inr hd⟩

/-- Ramp output lower bound: the interpolation from min_ramp_speed stays at or
above min_output. -/
theorem ramp_out_lb (m M t pr : ℚ) (h1 : m ≤ M) :
    m ≤ min (max t m) M + (M - min (max t m) M) * max 0 (min 1 pr) := by
  obtain ⟨h2, h3⟩ := min_ramp_range t m M h1
  obtain ⟨h4, h5⟩ := progress_range pr
  nlinarith

/-- A ramp output at or above min_output, capped at max_output, after the final
clamp: magnitude in [min_output, max_output]. -/
theorem ramp_final (m M x : ℚ) (h0 : 0 ≤ m) (h1 : m ≤ M) (hx1 : m ≤ x) :
    |max (min (min x M) M) (-M)| ≤ M ∧
    (max (min (min x M) M) (-M) = 0 ∨ m ≤ |max (min (min x M) M) (-M)|) := by
  have hXm : m ≤ min x M := le_min hx1 h1
  have hXM : min x M ≤ M := min_le_right _ _
  obtain ⟨hc, hd, he⟩ := final_clamp_pos_range m M _ h0 hXm hXM
  rw [hc]
  exact ⟨he, Or.inr hd⟩

/-- Zero output after the final clamp stays zero. -/
theorem zero_final (m M : ℚ) (h0 : 0 ≤ m) (h1 : m ≤ M) :
    |max (min 0 M) (-M)| ≤ M ∧
    (max (min 0 M) (-M) = 0 ∨ m ≤ |max (min 0 M) (-M)|) := by
  have hM : 0 ≤ M := le_trans h0 h1
  rw [final_clamp_zero M hM]
  simpa using hM

/-- PID output after the explicit clamp and the final clamp: magnitude in
[min_output, max_output]. -/
theorem pid_final (m M x : ℚ) (h0 : 0 ≤ m) (h1 : m ≤ M) :
    |max (min (min (max x m) M) M) (-M)| ≤ M ∧
    (max (min (min (max x m) M) M) (-M) = 0 ∨
      m ≤ |max (min (min (max x m) M) M) (-M)|) := by
  obtain ⟨ha, hb⟩ := pid_out_range x m M h1
  obtain ⟨hc, hd, he⟩ := final_clamp_pos_range m M _ h0 ha hb
  rw [hc]
  exact ⟨he, Or.inr hd⟩

/-- Drive-output bounds of the control-output section: the inner drive_set
commands are all zero and the final clamped output is either zero or has
magnitude in [min_output, max_output]. -/
theorem Servo.control_output_bounds (s : Servo) (e d t : Int)
    (h0 : 0 ≤ s.min_output) (h1 : s.min_output ≤ s.max_output) :
    (∀ c ∈ (s.control_output e d t).2.1, c = 0) ∧
    |max (min (s.control_output e d t).2.2 s.max_output) (-s.max_output)| ≤
      s.max_output ∧
    (max (min (s.control_output e d t).2.2 s.max_output) (-s.max_output) = 0 ∨
      s.min_output ≤
        |max (min (s.control_output e d t).2.2 s.max_output) (-s.max_output)|) := by
  unfold Servo.control_output
  dsimp only
  split
  · exact ⟨by simp, (phase1_final _ _ _ h0 h1).1, (phase1_final _ _ _ h0 h1).2⟩
  · split
    · split
      · exact ⟨by simp, (ramp_final _ _ _ h0 h1 (ramp_out_lb _ _ _ _ h1)).1,
          (ramp_final _ _ _ h0 h1 (ramp_out_lb _ _ _ _ h1)).2⟩
      · exact ⟨by simp, (ramp_final _ _ _ h0 h1 (min_ramp_range _ _ _ h1).1).1,
          (ramp_final _ _ _ h0 h1 (min_ramp_range _ _ _ h1).1).2⟩
    · split
      · exact ⟨by simp, (zero_final _ _ h0 h1).1, (zero_final _ _ h0 h1).2⟩
      · exact ⟨by simp, (pid_final _ _ _ h0 h1).1, (pid_final _ _ _ h0 h1).2⟩

/-- Every drive command of the movement-control section is zero or has
magnitude in [min_output, max_output] (and is always bounded by max_output). -/
theorem Servo.movement_control_drives (s : Servo) (cp tu : Int)
    (h0 : 0 ≤ s.min_output) (h1 : s.min_output ≤ s.max_output) :
    ∀ c ∈ (s.movement_control cp tu).2.1,
      |c| ≤ s.max_output ∧ (c = 0 ∨ s.min_output ≤ |c|) := by
  have hM : 0 ≤ s.max_output := le_trans h0 h1
  have hz : |(0 : ℚ)| ≤ s.max_output ∧ ((0 : ℚ) = 0 ∨ s.min_output ≤ |(0 : ℚ)|) :=
    ⟨by simpa using hM, Or.inl rfl⟩
  unfold Servo.movement_control
  dsimp only
  repeat' split
  all_goals simp only [Servo.control_output_preserves]
  all_goals intro c hc
  all_goals simp only [List.mem_append, List.mem_singleton, List.mem_cons,
    List.not_mem_nil, or_false, false_or, or_assoc] at hc
  all_goals
    first
      | (rcases hc with hc | hc | hc)
      | (rcases hc with hc | hc)
      | skip
  all_goals
    first
      | exact hz
      | (subst hc; exact hz)
      | (have hcz := (Servo.control_output_bounds _ _ _ _ (by exact h0)
           (by exact h1)).1 c hc
         rw [hcz]; exact hz)
      | (subst hc
         exact ⟨(Servo.control_output_bounds _ _ _ _ (by exact h0) (by exact h1)).2.1,
           ((Servo.control_output_bounds _ _ _ _ (by exact h0)
             (by exact h1)).2.2).elim Or.inl Or.inr⟩)
      | exact ⟨(Servo.control_output_bounds _ _ _ _ (by exact h0) (by exact h1)).2.1,
          ((Servo.control_output_bounds _ _ _ _ (by exact h0)
            (by exact h1)).2.2).elim Or.inl Or.inr⟩

/-- Restated drive bound for movement_control with the limits as explicit
values, to apply at states whose limit fields reduce to those of an outer
state. -/
theorem Servo.movement_control_drives_ext (s : Servo) (cp tu : Int) (m M : ℚ)
    (hm : s.min_output = m) (hM2 : s.max_output = M) (h0 : 0 ≤ m) (h1 : m ≤ M) :
    ∀ c ∈ (s.movement_control cp tu).2.1, |c| ≤ M ∧ (c = 0 ∨ m ≤ |c|) := by
  subst hm hM2
  exact Servo.movement_control_drives s cp tu h0 h1

/-- Every drive command of the Phase-1-completion-plus-movement section is zero
or has magnitude in [min_output, max_output]. -/
theorem Servo.update_phase1_check_drives (s : Servo) (cp tu tm : Int) (pacc : List Int)
    (h0 : 0 ≤ s.min_output) (h1 : s.min_output ≤ s.max_output) :
    ∀ c ∈ (s.update_phase1_check cp tu tm pacc).drive_cmds,
      |c| ≤ s.max_output ∧ (c = 0 ∨ s.min_output ≤ |c|) := by
  have hM : 0 ≤ s.max_output := le_trans h0 h1
  have hz : |(0 : ℚ)| ≤ s.max_output ∧ ((0 : ℚ) = 0 ∨ s.min_output ≤ |(0 : ℚ)|) :=
    ⟨by simpa using hM, Or.inl rfl⟩
  unfold Servo.update_phase1_check
  dsimp only
  repeat' split
  all_goals intro c hc
  all_goals simp only [List.mem_append, List.mem_singleton, List.mem_cons,
    List.not_mem_nil, or_false, false_or, or_assoc] at hc
  all_goals
    first
      | (rcases hc with hc | hc | hc)
      | (rcases hc with hc | hc)
      | skip
  all_goals
    first
      | exact hz
      | (subst hc; exact hz)
      | exact Servo.movement_control_drives_ext _ _ _ _ _ (by rfl) (by rfl) h0 h1 c hc

/-- Restated drive bound for update_phase1_check with explicit limit values. -/
theorem Servo.update_phase1_check_drives_ext (s : Servo) (cp tu tm : Int)
    (pacc : List Int) (m M : ℚ) (hm : s.min_output = m) (hM2 : s.max_output = M)
    (h0 : 0 ≤ m) (h1 : m ≤ M) :
    ∀ c ∈ (s.update_phase1_check cp tu tm pacc).drive_cmds,
      |c| ≤ M ∧ (c = 0 ∨ m ≤ |c|) := by
  subst hm hM2
  exact Servo.update_phase1_check_drives s cp tu tm pacc h0 h1

/-! ## C5 -/

/-- C5: on every tick, each drive command has magnitude at most max_output and
is never strictly between 0 and min_output: it is either exactly zero or has
magnitude in [min_output, max_output] (the phase-1 interpolation included,
via its explicit clamp), for any configuration with
0 ≤ min_output ≤ max_output as produced by construction. -/
theorem c5_drive_magnitude (s : Servo) (cp tu tm : Int)
    (h0 : 0 ≤ s.min_output) (h1 : s.min_output ≤ s.max_output) :
    ∀ c ∈ (s.update cp tu tm).drive_cmds,
      |c| ≤ s.max_output ∧ (c = 0 ∨ s.min_output ≤ |c|) := by
  unfold Servo.update
  dsimp only
  repeat' split
  all_goals intro c hc
  all_goals
    first
      | exact absurd hc (List.not_mem_nil c)
      | exact Servo.update_phase1_check_drives_ext _ _ _ _ _ _ _ (by rfl) (by rfl)
          h0 h1 c hc

/-- C5 witness: the zero command issued by the overshoot tick of the default
controller satisfies the magnitude bounds. -/
theorem c5_drive_magnitude_witness :
    |(0 : ℚ)| ≤ c3Spot.max_output ∧ ((0 : ℚ) = 0 ∨ c3Spot.min_output ≤ |(0 : ℚ)|) :=
  c5_drive_magnitude c3Spot 1020 20000 20 (by decide) (by decide) 0 (by decide)
